import Mathlib

/-
Verification of the hacky agent script (src/hacky/agent.py).

The script is Python glue code whose effectful parts (subprocess execution,
DNS resolution, TCP connections, filesystem reads, environment variables)
are modelled here as explicit parameters: each outside effect becomes a
function argument describing the outcome the operating system would give,
and each Python function becomes a total Lean function of that outcome.
-/

namespace Hacky

/-! ## Subprocess model and execute_bash_command (agent.py lines 68-80) -/

/-- Outcome of `subprocess.run(command, shell=True, check=True, text=True,
capture_output=True)`: normal completion with captured stdout/stderr,
a `CalledProcessError` (nonzero exit status, check=True) carrying the
captured stderr, or any other exception rendered as its message string. -/
inductive RunResult where
  | success (stdout stderr : String)
  | calledProcessError (stdout stderr : String)
  | otherException (msg : String)
  deriving DecidableEq

/-- Python `str.strip()` with no argument: removes leading and trailing
whitespace, modelled over the character list of the string. -/
def pyStrip (s : String) : String :=
  String.mk (((s.data.dropWhile Char.isWhitespace).reverse.dropWhile
    Char.isWhitespace).reverse)

/-- Embedding of `execute_bash_command`.  `run` is the subprocess model.
The Lean function is total: every branch returns a string, mirroring the
`try`/`except` structure that converts every exception into a string. -/
def execute_bash_command (run : String → RunResult) (command : String) : String :=
  match run command with
  | RunResult.success stdout _ => pyStrip stdout
  | RunResult.calledProcessError _ stderr =>
      "Error executing command: " ++ pyStrip stderr
  | RunResult.otherException e => "Error executing command: " ++ e

/-! ## DNS model and perform_dns_lookup (agent.py lines 83-91) -/

/-- Outcome of `socket.gethostbyname(hostname)`: a resolved IP address
string, or a `socket.gaierror` resolution failure. -/
inductive DnsResult where
  | resolved (ip : String)
  | gaierror
  deriving DecidableEq

/-- Embedding of `perform_dns_lookup`.  `resolve` is the resolver model. -/
def perform_dns_lookup (resolve : String → DnsResult) (hostname : String) : String :=
  match resolve hostname with
  | DnsResult.resolved ip => ip
  | DnsResult.gaierror => "DNS lookup failed"

/-! ## TCP model and attempt_tcp_socket_connection (agent.py lines 94-109) -/

/-- Outcome of `socket.connect((hostname, port))` under a 1-second timeout:
a successful connection, or any exception whatsoever (resolution failure,
refusal, timeout, invalid input), carrying its message. -/
inductive ConnectResult where
  | connected
  | exn (msg : String)
  deriving DecidableEq

/-- Embedding of `attempt_tcp_socket_connection`.  The bare `except:` in the
source catches every exception, which the model reflects by mapping every
`ConnectResult.exn` value to `false`; the Lean function is total. -/
def attempt_tcp_socket_connection (connect : String → Int → ConnectResult)
    (hostname : String) (port : Int) : Bool :=
  match connect hostname port with
  | ConnectResult.connected => true
  | ConnectResult.exn _ => false

/-! ## Filesystem model and get_os_version (agent.py lines 38-48) -/

/-- Embedding of `get_os_version`.  `osRelease` is `some contents` when
`os.path.isfile("/etc/os-release")` holds and the file reads as `contents`,
`none` otherwise; `platformDesc` is the value of `platform.platform()`. -/
def get_os_version (osRelease : Option String) (platformDesc : String) : String :=
  match osRelease with
  | some contents => contents
  | none => platformDesc

/-! ## get_shells (agent.py lines 57-65) -/

/-- The fixed candidate list scanned by `get_shells`. -/
def shellCandidates : List String := ["/bin/bash", "/bin/sh", "/bin/zsh", "/bin/fish"]

/-- Embedding of `get_shells`.  `which` models `shutil.which`: for these
absolute paths it returns the path when it is an executable file, `None`
otherwise; the loop appends each candidate whose lookup is truthy. -/
def get_shells (which : String → Option String) : List String :=
  shellCandidates.filter (fun shell => (which shell).isSome)

/-! ## Tool-call callback (agent.py lines 113-141) -/

/-- Python `str.lower()` for the ASCII strings compared by the callback. -/
def pyLower (s : String) : String := String.mk (s.data.map Char.toLower)

/-- Python `str.upper()` for the ASCII strings compared by the callback. -/
def pyUpper (s : String) : String := String.mk (s.data.map Char.toUpper)

/-- The args dict of the callback, as an insertion-ordered association
list from argument name to string value. -/
abbrev Args := List (String × String)

/-- Python `args.get(key, d)`. -/
def argsGet (args : Args) (key d : String) : String :=
  match args.find? (fun p => p.1 = key) with
  | some p => p.2
  | none => d

/-- Python `args[key] = v`: updates the entry in place, keeping insertion
order, or appends when the key is absent. -/
def argsSet : Args → String → String → Args
  | [], key, v => [(key, v)]
  | (k, w) :: rest, key, v =>
      if k = key then (k, v) :: rest else (k, w) :: argsSet rest key v

/-- Return value of the before-tool callback: `None` (the call proceeds
with the args dict as it now stands) or a dict whose `result` entry
replaces the tool call. -/
inductive CallbackResult where
  | proceed
  | blocked (result : String)
  deriving DecidableEq

/-- Embedding of `simple_before_tool_modifier`.  The result pairs the args
dict as it stands after the call (the callback may mutate it) with the
returned value.  The source compares `args.get("hostname", "").lower()`
against `"example.com"` and, failing that, `args.get("hostname",
"").upper()` against `"BLOCK"`; print statements are pure logging and are
not modelled. -/
def simple_before_tool_modifier (toolName : String) (args : Args) :
    Args × CallbackResult :=
  if toolName = "perform_dns_lookup" ∧
      pyLower (argsGet args "hostname" "") = "example.com" then
    (argsSet args "hostname" "google.com", CallbackResult.proceed)
  else if toolName = "perform_dns_lookup" ∧
      pyUpper (argsGet args "hostname" "") = "BLOCK" then
    (args, CallbackResult.blocked "Tool execution was blocked by before_tool_callback.")
  else
    (args, CallbackResult.proceed)

/-! ## Environment-variable configuration readers (agent.py lines 181-214) -/

/-- The process environment: maps a variable name to its value when set. -/
abbrev Env := String → Option String

/-- Python `os.getenv(key, d)`. -/
def getenv (env : Env) (key d : String) : String := (env key).getD d

/-- Embedding of `get_project_id`. -/
def get_project_id (env : Env) : String :=
  getenv env "GOOGLE_CLOUD_PROJECT" "methodical-bee-162815"

/-- Embedding of `get_region`. -/
def get_region (env : Env) : String :=
  getenv env "GOOGLE_CLOUD_REGION" "us-central1"

/-- Embedding of `get_kms_project`: the fallback is the value of
`get_project_id()`, evaluated against the same environment. -/
def get_kms_project (env : Env) : String :=
  getenv env "KMS_PROJECT" (get_project_id env)

/-- Embedding of the `GCS_BUCKET` read performed inline by `init_vertex`
(`os.getenv("GCS_BUCKET", "gs://bobby-test")`). -/
def get_gcs_bucket (env : Env) : String :=
  getenv env "GCS_BUCKET" "gs://bobby-test"

/-- Embedding of `get_kms_key`: the fallback is an f-string composed from
`get_kms_project()`, `get_region()` and `get_project_id()`. -/
def get_kms_key (env : Env) : String :=
  getenv env "CRYPTO_KEY"
    ("projects/" ++ get_kms_project env ++ "/locations/" ++ get_region env ++
      "/keyRings/" ++ get_project_id env ++ "/cryptoKeys/multiProductKey")

/-! ## Deployment variants (agent.py lines 229-468) -/

/-- The mutually exclusive deploy flags of the CLI. -/
inductive DeployFlag where
  | deploy
  | deploy2
  | deploy2a
  | deploy3
  | deploy4
  | deploy5
  | deploy5a
  deriving DecidableEq

/-- The install script listed in `extra_packages` and in
`build_options["installation_scripts"]` by every variant. -/
def installScript : String := "installation_scripts/install.sh"

/-- The pinned-package requirements list used by the non-wheel variants. -/
def pinnedRequirements : List String := ["google-cloud-aiplatform[agent_engines,adk]"]

/-- The custom service account passed by deploy4 and deploy5. -/
def serviceAccountName : String :=
  "reasoning-engine-sa1@methodical-bee-162815.iam.gserviceaccount.com"

/-- The private network attachment passed by deploy5 and deploy5a. -/
def networkAttachmentName : String :=
  "projects/methodical-bee-162815/regions/us-central1/networkAttachments/default-agent-engine"

/-- The keyword configuration each branch passes to `agent_engines.create`
(whose returned handle the branch then prints).  `app_enable_tracing`
records which AdkApp is deployed (`app` with tracing on, or `app2a` with
tracing off); `encryption_spec_kms_key_name` is the `kms_key_name` entry of
the `encryption_spec` dict when one is passed; `psc_network_attachment` is
the `network_attachment` entry of the `psc_interface_config` dict when one
is passed. -/
structure CreateConfig where
  app_enable_tracing : Bool
  requirements : List String
  extra_packages : List String
  installation_scripts : List String
  gcs_dir_name : String
  display_name : String
  description : String
  encryption_spec_kms_key_name : Option String
  service_account : Option String
  psc_network_attachment : Option String
  deriving DecidableEq

/-- Embedding of the `--deployN` CLI branches: the configuration passed to
`agent_engines.create` for each flag.  `env` is the process environment
(read through `get_kms_key` by deploy2 and deploy2a) and `wheels` is the
result of `get_wheels()` (the glob of `./wheels/*.whl`). -/
def deployConfig (env : Env) (wheels : List String) : DeployFlag → CreateConfig
  | DeployFlag.deploy =>
    { app_enable_tracing := true
      requirements := pinnedRequirements
      extra_packages := [installScript]
      installation_scripts := [installScript]
      gcs_dir_name := "one"
      display_name := "Hacky agent no psci, nocmek, no custom sa, pypi accesible"
      description := "A version of hacky agent to allow exploration of runtime \nenv for agent space. o psci, nocmek, no custom sa, pypi accesible\n        "
      encryption_spec_kms_key_name := none
      service_account := none
      psc_network_attachment := none }
  | DeployFlag.deploy2 =>
    { app_enable_tracing := true
      requirements := pinnedRequirements
      extra_packages := [installScript]
      installation_scripts := [installScript]
      gcs_dir_name := "two"
      display_name := "Hacky agent no psci, has cmek, no custom sa, pypi accesible"
      description := "A version of hacky agent to allow exploration of runtime \nenv for agent space. o psci, nocmek, no custom sa, pypi accesible\n        "
      encryption_spec_kms_key_name := some (get_kms_key env)
      service_account := none
      psc_network_attachment := none }
  | DeployFlag.deploy2a =>
    { app_enable_tracing := false
      requirements := pinnedRequirements
      extra_packages := [installScript]
      installation_scripts := [installScript]
      gcs_dir_name := "twoa"
      display_name := "Hacky agent no psci, has cmek, no custom sa, pypi accesible"
      description := "A version of hacky agent to allow exploration of runtime \nenv for agent space. o psci, nocmek, no custom sa, pypi accesible\n        "
      encryption_spec_kms_key_name := some (get_kms_key env)
      service_account := none
      psc_network_attachment := none }
  | DeployFlag.deploy3 =>
    { app_enable_tracing := true
      requirements := wheels
      extra_packages := installScript :: wheels
      installation_scripts := [installScript]
      gcs_dir_name := "three"
      display_name := "Hacky agent no psci, no cmek, no custom sa, pypi wheels only"
      description := "A version of hacky agent to allow exploration of runtime \nenv for agent space. o psci, nocmek, no custom sa, pypi wheels only\n        "
      encryption_spec_kms_key_name := none
      service_account := none
      psc_network_attachment := none }
  | DeployFlag.deploy4 =>
    { app_enable_tracing := true
      requirements := wheels
      extra_packages := installScript :: wheels
      installation_scripts := [installScript]
      gcs_dir_name := "four"
      display_name := "Hacky agent no psci, no cmek, custom sa, pypi wheels only"
      description := "A version of hacky agent to allow exploration of runtime \nenv for agent space. no psci, nocmek, custom sa, , pypi wheels only\n        "
      encryption_spec_kms_key_name := none
      service_account := some serviceAccountName
      psc_network_attachment := none }
  | DeployFlag.deploy5 =>
    { app_enable_tracing := true
      requirements := wheels
      extra_packages := installScript :: wheels
      installation_scripts := [installScript]
      gcs_dir_name := "five"
      display_name := "Hacky agent psci, no cmek, custom sa, pypi wheels only"
      description := "A version of hacky agent to allow exploration of runtime \nenv for agent space. no psci, nocmek, custom sa, , pypi wheels only\n        "
      encryption_spec_kms_key_name := none
      service_account := some serviceAccountName
      psc_network_attachment := some networkAttachmentName }
  | DeployFlag.deploy5a =>
    { app_enable_tracing := true
      requirements := pinnedRequirements
      extra_packages := [installScript]
      installation_scripts := [installScript]
      gcs_dir_name := "fivea"
      display_name := "Hacky agent psci, nocmek, no custom sa, pypi accesible"
      description := "A version of hacky agent to allow exploration of runtime \nenv for agent space. psci, nocmek, no custom sa, pypi accesible\n        "
      encryption_spec_kms_key_name := none
      service_account := none
      psc_network_attachment := some networkAttachmentName }

/-! ## Concrete models used by witnesses and counterexamples -/

/-- A concrete subprocess model: one succeeding command, all others fail. -/
def runModel : String → RunResult := fun c =>
  if c = "echo hi" then RunResult.success " hi\n" ""
  else RunResult.calledProcessError "" " no such file\n"

/-- A concrete connection model: succeeds on port 443, raises otherwise. -/
def connModel : String → Int → ConnectResult := fun _ p =>
  if p = 443 then ConnectResult.connected else ConnectResult.exn "timed out"

/-- A concrete args dict whose hostname is a mixed-case spelling that
differs from both literals of the callback. -/
def argsMixedCase : Args := [("hostname", "Example.com")]

/-- A concrete environment with no variable set. -/
def envEmpty : Env := fun _ => none

/-- A concrete environment with only `GOOGLE_CLOUD_PROJECT` set. -/
def envOtherProject : Env := fun k =>
  if k = "GOOGLE_CLOUD_PROJECT" then some "other-project" else none

end Hacky

namespace Hacky

/-- C1: execute_bash_command returns the stripped stdout when the command
succeeds, returns the string Error executing command: followed by the
stripped stderr when the command fails with a nonzero exit status, and is
total (never propagates an exception: every subprocess outcome, including
any other exception, is mapped to a result string). -/
theorem execute_bash_command_spec (run : String → RunResult) (command : String) :
    (∀ out err, run command = RunResult.success out err →
      execute_bash_command run command = pyStrip out) ∧
    (∀ out err, run command = RunResult.calledProcessError out err →
      execute_bash_command run command = "Error executing command: " ++ pyStrip err) := by
  constructor
  · intro out err h
    simp [execute_bash_command, h]
  · intro out err h
    simp [execute_bash_command, h]

/-- Witness for C1: on the concrete subprocess model a succeeding command
yields its stripped stdout and a failing one the error string. -/
theorem execute_bash_command_spec_witness :
    execute_bash_command runModel "echo hi" = "hi" ∧
    execute_bash_command runModel "cat missing" =
      "Error executing command: no such file" := by
  constructor
  · exact ((execute_bash_command_spec runModel "echo hi").1 " hi\n" "" (by decide)).trans
      (by decide)
  · exact ((execute_bash_command_spec runModel "cat missing").2 "" " no such file\n"
      (by decide)).trans (by decide)

/-- C5: perform_dns_lookup returns the resolved IP address string when name
resolution succeeds and the sentinel DNS lookup failed when resolution
raises gaierror; the function is total, so no exception escapes. -/
theorem perform_dns_lookup_spec (resolve : String → DnsResult) (hostname : String) :
    (∀ ip, resolve hostname = DnsResult.resolved ip →
      perform_dns_lookup resolve hostname = ip) ∧
    (resolve hostname = DnsResult.gaierror →
      perform_dns_lookup resolve hostname = "DNS lookup failed") := by
  constructor
  · intro ip h
    simp [perform_dns_lookup, h]
  · intro h
    simp [perform_dns_lookup, h]

/-- Witness for C5: a concrete resolver on which one hostname resolves and
another fails. -/
theorem perform_dns_lookup_spec_witness :
    perform_dns_lookup
      (fun h => if h = "google.com" then DnsResult.resolved "142.250.1.1"
                else DnsResult.gaierror) "google.com" = "142.250.1.1" ∧
    perform_dns_lookup
      (fun h => if h = "google.com" then DnsResult.resolved "142.250.1.1"
                else DnsResult.gaierror) "nope.invalid" = "DNS lookup failed" := by
  constructor
  · exact (perform_dns_lookup_spec _ "google.com").1 "142.250.1.1" rfl
  · exact (perform_dns_lookup_spec _ "nope.invalid").2 rfl

/-- C10: attempt_tcp_socket_connection is total at its interface: it
returns true exactly when the connection attempt succeeds within the
timeout and false on every exception outcome whatsoever, so no error
propagates to the caller. -/
theorem attempt_tcp_socket_connection_spec (connect : String → Int → ConnectResult)
    (hostname : String) (port : Int) :
    attempt_tcp_socket_connection connect hostname port = true ↔
      connect hostname port = ConnectResult.connected := by
  unfold attempt_tcp_socket_connection
  cases h : connect hostname port <;> simp

/-- Witness for C10: on the concrete connection model the call returns true
on the reachable port and false on the one whose attempt raises. -/
theorem attempt_tcp_socket_connection_spec_witness :
    attempt_tcp_socket_connection connModel "example.com" 443 = true ∧
    attempt_tcp_socket_connection connModel "example.com" 80 = false := by
  refine ⟨(attempt_tcp_socket_connection_spec connModel "example.com" 443).mpr (by decide), ?_⟩
  cases hb : attempt_tcp_socket_connection connModel "example.com" 80
  · rfl
  · exact absurd ((attempt_tcp_socket_connection_spec connModel "example.com" 80).mp hb)
      (by decide)

/-- C9: get_os_version returns the contents of /etc/os-release verbatim
when that file exists, and the platform description string otherwise. -/
theorem get_os_version_spec (osRelease : Option String) (platformDesc : String) :
    (∀ contents, osRelease = some contents →
      get_os_version osRelease platformDesc = contents) ∧
    (osRelease = none → get_os_version osRelease platformDesc = platformDesc) := by
  constructor
  · intro contents h
    simp [get_os_version, h]
  · intro h
    simp [get_os_version, h]

/-- Witness for C9: concrete filesystem states for both branches. -/
theorem get_os_version_spec_witness :
    get_os_version (some "NAME=Debian\n") "Linux-6.1" = "NAME=Debian\n" ∧
    get_os_version none "Linux-6.1" = "Linux-6.1" := by
  constructor
  · exact (get_os_version_spec (some "NAME=Debian\n") "Linux-6.1").1 "NAME=Debian\n" rfl
  · exact (get_os_version_spec none "Linux-6.1").2 rfl

/-- C8: get_shells inspects exactly the fixed four candidate paths, returns
the subset of them whose lookup is truthy, preserves the order of the fixed
list (the result is a sublist of it), and has no error path (it is total). -/
theorem get_shells_spec (which : String → Option String) :
    (get_shells which).Sublist shellCandidates ∧
    (∀ s, s ∈ get_shells which ↔ s ∈ shellCandidates ∧ (which s).isSome) := by
  constructor
  · exact List.filter_sublist _
  · intro s
    simp [get_shells, List.mem_filter]

/-- Witness for C8: a concrete executability model with bash and zsh
present yields exactly those two, in candidate order. -/
theorem get_shells_spec_witness :
    get_shells (fun s => if s = "/bin/bash" ∨ s = "/bin/zsh" then some s else none) =
      ["/bin/bash", "/bin/zsh"] ∧
    ("/bin/zsh" ∈ get_shells
      (fun s => if s = "/bin/bash" ∨ s = "/bin/zsh" then some s else none) ↔
      "/bin/zsh" ∈ shellCandidates ∧
      ((fun s => if s = "/bin/bash" ∨ s = "/bin/zsh" then some s else none)
        "/bin/zsh").isSome) := by
  constructor
  · decide
  · exact (get_shells_spec _).2 "/bin/zsh"

/-- C2: when the tool is perform_dns_lookup and the hostname argument is
the literal example.com, the callback rewrites the hostname entry of the
args dict to google.com and returns None, so the call proceeds with the
modified arguments. -/
theorem simple_before_tool_modifier_example (args : Args)
    (h : argsGet args "hostname" "" = "example.com") :
    simple_before_tool_modifier "perform_dns_lookup" args =
      (argsSet args "hostname" "google.com", CallbackResult.proceed) := by
  unfold simple_before_tool_modifier
  rw [h, if_pos ⟨rfl, by decide⟩]

/-- Witness for C2: a concrete args dict with hostname example.com is
rewritten to google.com. -/
theorem simple_before_tool_modifier_example_witness :
    simple_before_tool_modifier "perform_dns_lookup" [("hostname", "example.com")] =
      ([("hostname", "google.com")], CallbackResult.proceed) := by
  exact (simple_before_tool_modifier_example [("hostname", "example.com")]
    (by decide)).trans (by decide)

/-- C3: when the tool is perform_dns_lookup and the hostname argument is
the literal BLOCK, the callback short-circuits the tool call by returning
the canned result dict instead of None, without mutating the args dict. -/
theorem simple_before_tool_modifier_block (args : Args)
    (h : argsGet args "hostname" "" = "BLOCK") :
    simple_before_tool_modifier "perform_dns_lookup" args =
      (args, CallbackResult.blocked
        "Tool execution was blocked by before_tool_callback.") := by
  unfold simple_before_tool_modifier
  rw [h, if_neg (by decide), if_pos ⟨rfl, by decide⟩]

/-- Witness for C3: a concrete args dict with hostname BLOCK is left
unchanged and the canned blocking result is returned. -/
theorem simple_before_tool_modifier_block_witness :
    simple_before_tool_modifier "perform_dns_lookup" [("hostname", "BLOCK")] =
      ([("hostname", "BLOCK")], CallbackResult.blocked
        "Tool execution was blocked by before_tool_callback.") := by
  exact simple_before_tool_modifier_block [("hostname", "BLOCK")] (by decide)

/-- C4 counterexample: the hostname Example.com equals neither of the two
literals example.com and BLOCK, yet the callback does not pass the call
through unchanged: it lowercases the hostname before comparing, so it
mutates the args dict to google.com. -/
theorem simple_before_tool_modifier_passthrough_cex :
    argsGet argsMixedCase "hostname" "" ≠ "example.com" ∧
    argsGet argsMixedCase "hostname" "" ≠ "BLOCK" ∧
    simple_before_tool_modifier "perform_dns_lookup" argsMixedCase ≠
      (argsMixedCase, CallbackResult.proceed) := by
  decide

/-- C4 (amended): the callback returns None and leaves the args dict
unchanged whenever the tool name is not perform_dns_lookup, or the
lowercased hostname argument differs from example.com and the uppercased
hostname argument differs from BLOCK (the comparisons in the source are
case-insensitive, not literal). -/
theorem simple_before_tool_modifier_passthrough (toolName : String) (args : Args)
    (h : toolName ≠ "perform_dns_lookup" ∨
      (pyLower (argsGet args "hostname" "") ≠ "example.com" ∧
        pyUpper (argsGet args "hostname" "") ≠ "BLOCK")) :
    simple_before_tool_modifier toolName args = (args, CallbackResult.proceed) := by
  unfold simple_before_tool_modifier
  have h1 : ¬(toolName = "perform_dns_lookup" ∧
      pyLower (argsGet args "hostname" "") = "example.com") := by
    rcases h with h | ⟨ha, _⟩
    · exact fun hc => h hc.1
    · exact fun hc => ha hc.2
  have h2 : ¬(toolName = "perform_dns_lookup" ∧
      pyUpper (argsGet args "hostname" "") = "BLOCK") := by
    rcases h with h | ⟨_, hb⟩
    · exact fun hc => h hc.1
    · exact fun hc => hb hc.2
  rw [if_neg h1, if_neg h2]

/-- Witness for the amended C4: a different tool passes through, and so
does a hostname matching neither literal case-insensitively. -/
theorem simple_before_tool_modifier_passthrough_witness :
    simple_before_tool_modifier "get_shells" [("hostname", "example.com")] =
      ([("hostname", "example.com")], CallbackResult.proceed) ∧
    simple_before_tool_modifier "perform_dns_lookup" [("hostname", "bbc.co.uk")] =
      ([("hostname", "bbc.co.uk")], CallbackResult.proceed) := by
  constructor
  · exact simple_before_tool_modifier_passthrough "get_shells"
      [("hostname", "example.com")] (Or.inl (by decide))
  · exact simple_before_tool_modifier_passthrough "perform_dns_lookup"
      [("hostname", "bbc.co.uk")] (Or.inr (by decide))

/-- C6 counterexample: get_kms_project has no literal fallback: with
KMS_PROJECT unset its value still varies with the rest of the environment
(it falls back to the value of get_project_id), so no fixed default string
exists; the same holds for CRYPTO_KEY. -/
theorem config_literal_default_cex :
    ¬ ∃ d : String, ∀ env : Env,
      env "KMS_PROJECT" = none → get_kms_project env = d := by
  rintro ⟨d, hd⟩
  have h1 : ("methodical-bee-162815" : String) = d :=
    (show get_kms_project envEmpty = "methodical-bee-162815" by decide).symm.trans
      (hd envEmpty rfl)
  have h2 : ("other-project" : String) = d :=
    (show get_kms_project envOtherProject = "other-project" by decide).symm.trans
      (hd envOtherProject (by decide))
  exact absurd (h1.trans h2.symm) (by decide)

/-- C6 (amended): each reader returns the value of its environment variable
when it is set; when unset, GCS_BUCKET, GOOGLE_CLOUD_PROJECT and
GOOGLE_CLOUD_REGION fall back to fixed literals, while KMS_PROJECT falls
back to the value of the project-id reader and CRYPTO_KEY to a resource
name composed from the KMS project, region and project id. -/
theorem config_readers_spec (env : Env) :
    (∀ v, env "GOOGLE_CLOUD_PROJECT" = some v → get_project_id env = v) ∧
    (env "GOOGLE_CLOUD_PROJECT" = none →
      get_project_id env = "methodical-bee-162815") ∧
    (∀ v, env "GOOGLE_CLOUD_REGION" = some v → get_region env = v) ∧
    (env "GOOGLE_CLOUD_REGION" = none → get_region env = "us-central1") ∧
    (∀ v, env "GCS_BUCKET" = some v → get_gcs_bucket env = v) ∧
    (env "GCS_BUCKET" = none → get_gcs_bucket env = "gs://bobby-test") ∧
    (∀ v, env "KMS_PROJECT" = some v → get_kms_project env = v) ∧
    (env "KMS_PROJECT" = none → get_kms_project env = get_project_id env) ∧
    (∀ v, env "CRYPTO_KEY" = some v → get_kms_key env = v) ∧
    (env "CRYPTO_KEY" = none → get_kms_key env =
      "projects/" ++ get_kms_project env ++ "/locations/" ++ get_region env ++
        "/keyRings/" ++ get_project_id env ++ "/cryptoKeys/multiProductKey") := by
  refine ⟨?_, ?_, ?_, ?_, ?_, ?_, ?_, ?_, ?_, ?_⟩
  · intro v h; simp [get_project_id, getenv, h]
  · intro h; simp [get_project_id, getenv, h]
  · intro v h; simp [get_region, getenv, h]
  · intro h; simp [get_region, getenv, h]
  · intro v h; simp [get_gcs_bucket, getenv, h]
  · intro h; simp [get_gcs_bucket, getenv, h]
  · intro v h; simp [get_kms_project, getenv, h]
  · intro h; simp [get_kms_project, getenv, h]
  · intro v h; simp [get_kms_key, getenv, h]
  · intro h; simp [get_kms_key, getenv, h]

/-- Witness for the amended C6: on the environment with only
GOOGLE_CLOUD_PROJECT set, the project reader returns the set value, the
region reader returns its literal fallback, and the KMS project reader
falls back to the project id. -/
theorem config_readers_spec_witness :
    get_project_id envOtherProject = "other-project" ∧
    get_region envOtherProject = "us-central1" ∧
    get_kms_project envOtherProject = get_project_id envOtherProject := by
  refine ⟨(config_readers_spec envOtherProject).1 "other-project" (by decide), ?_, ?_⟩
  · exact (config_readers_spec envOtherProject).2.2.2.1 (by decide)
  · exact (config_readers_spec envOtherProject).2.2.2.2.2.2.2.1 (by decide)

/-- C7: for every deploy flag, the configuration handed to the external
creation entrypoint carries the encryption key resource name exactly for
deploy2 and deploy2a, the custom service account exactly for deploy4 and
deploy5, and the private network attachment exactly for deploy5 and
deploy5a; every variant lists the fixed install script, and the wheel
variants deploy3, deploy4 and deploy5 take their requirements from the
wheels directory while the others use the pinned package. -/
theorem deploy_variants_spec (env : Env) (wheels : List String) (flag : DeployFlag) :
    (deployConfig env wheels flag).encryption_spec_kms_key_name =
      (if flag = DeployFlag.deploy2 ∨ flag = DeployFlag.deploy2a
        then some (get_kms_key env) else none) ∧
    (deployConfig env wheels flag).service_account =
      (if flag = DeployFlag.deploy4 ∨ flag = DeployFlag.deploy5
        then some serviceAccountName else none) ∧
    (deployConfig env wheels flag).psc_network_attachment =
      (if flag = DeployFlag.deploy5 ∨ flag = DeployFlag.deploy5a
        then some networkAttachmentName else none) ∧
    (deployConfig env wheels flag).installation_scripts = [installScript] ∧
    installScript ∈ (deployConfig env wheels flag).extra_packages ∧
    (deployConfig env wheels flag).requirements =
      (if flag = DeployFlag.deploy3 ∨ flag = DeployFlag.deploy4 ∨
          flag = DeployFlag.deploy5
        then wheels else pinnedRequirements) := by
  cases flag <;> simp [deployConfig]

end Hacky
